import Mathlib

/-!
Shallow embedding of the synapse-agent resource controllers
(`src/synapse/resources/files-plugin/files.py` and
`src/synapse/resources/groups-plugin/groups.py`), together with theorems
settling the specification claims about them.

The base class `ResourcesController` (`synapse/resources/resources.py`) is
not part of the sources; where its behaviour decides a claim
(`check_mandatory`, `comply`, the bookkeeping of `self.status` and
`self.response`) it is modelled from the spec, and each such definition
says so in its doc comment.
-/

/-- Errors of the embedded controllers, mirroring the spec's taxonomy:
`MandatoryFieldMissing` (empty res_id), `ResourceNotFound` (group read on a
nonexistent name), plus generic resource errors. -/
inductive RErr where
  | mandatoryFieldMissing
  | resourceNotFound
  | transportError
  | decodeError
  | modeParseError
  deriving DecidableEq, Repr

/-- Decidable equality for `Except` results, so that concrete runs of the
embedded operations can be checked by `decide`. -/
instance exceptDecEq {e a : Type} [DecidableEq e] [DecidableEq a] :
    DecidableEq (Except e a) := fun x y =>
  match x, y with
  | Except.error u, Except.error v =>
    if h : u = v then isTrue (by rw [h])
    else isFalse (fun he => by injection he; exact h (by assumption))
  | Except.error _, Except.ok _ => isFalse (fun he => Except.noConfusion he)
  | Except.ok _, Except.error _ => isFalse (fun he => Except.noConfusion he)
  | Except.ok u, Except.ok v =>
    if h : u = v then isTrue (by rw [h])
    else isFalse (fun he => by injection he; exact h (by assumption))

/-- A `ResourceState` as built by `FilesController.read`: a string-keyed
status mapping with optional fields; `none` means the key is absent from
the dict. `name` is never set by `read` but is compared by `monitor`. -/
structure FileState where
  present : Option Bool
  name : Option String
  owner : Option String
  group : Option String
  mode : Option String
  mod_time : Option String
  c_time : Option String
  md5 : Option String
  content : Option String
  deriving DecidableEq, Repr

/-- The empty status dict `{}`. -/
def emptyFileState : FileState :=
  ⟨none, none, none, none, none, none, none, none, none⟩

/-- The keyword arguments of a `comply(...)` call, i.e. the snapshot mapping
declared into the baseline `DesiredStateRecord`; `none` marks a keyword that
was not passed. Modelled from the spec: `comply` (in the base class, absent
from the sources) overwrites the baseline record for the resource with
exactly the given mapping. -/
structure ComplyArgs where
  name : Option String
  present : Option Bool
  owner : Option String
  group : Option String
  mode : Option String
  mod_time : Option String
  c_time : Option String
  md5 : Option String
  gid : Option Nat
  monitor : Option Bool
  deriving DecidableEq, Repr

/-- A `comply` call with no keyword arguments at all. -/
def emptyComply : ComplyArgs :=
  ⟨none, none, none, none, none, none, none, none, none, none⟩

/-- The `comply(monitor=False)` call made by both delete operations. -/
def complyMonitorFalse : ComplyArgs :=
  { emptyComply with monitor := some false }

/-- The attribute options that `FilesController.read` consults: it looks up
only `get_content` and `md5` in the attributes dict (truthiness of the
looked-up values). -/
structure ReadAttrs where
  get_content : Bool
  md5 : Bool
  deriving DecidableEq, Repr

/-- The default (empty) attributes dict of a `read` call. -/
def noAttrs : ReadAttrs := ⟨false, false⟩

/-- On-disk record of one file known to the modelled `SystemModule`:
its content as last written (`none` when `set_content` wrote `None`),
and its metadata. -/
structure FileRec where
  content : Option String
  owner : String
  group : String
  mode : String
  modTime : String
  cTime : String
  deriving DecidableEq, Repr

/-- The file-side `SystemModule` state: the files on disk plus the process
environment (current user for `getpass.getuser()`, the umask-derived default
mode, a clock for `datetime.now()`), a table backing `content_by_url`
fetches, and the sets of resources on which the external module operations
`read`-path calls, `md5`, or `delete` fail (raising `ResourceException` /
leaving the file in place). -/
structure FileSys where
  files : List (String × FileRec)
  currentUser : String
  defaultMode : String
  clock : String
  urls : List (String × String)
  failingReads : List String
  failingMd5 : List String
  failingDeletes : List String
  deriving DecidableEq, Repr

/-- Content digest used to model `md5` / `md5_str`: a stand-in fingerprint,
a function only of the content bytes (with `None` content distinguished). -/
def md5Digest : Option String → String
  | some c => "#".append c
  | none => "#None"

def FileSys.lookupFile (sys : FileSys) (p : String) : Option FileRec :=
  List.lookup p sys.files

/-- `SystemModule.is_file`. -/
def FileSys.isFile (sys : FileSys) (p : String) : Bool :=
  (sys.lookupFile p).isSome

/-- `SystemModule.exists`. -/
def FileSys.fsExists (sys : FileSys) (p : String) : Bool :=
  (sys.lookupFile p).isSome

/-- `SystemModule.get_content`. -/
def FileSys.getContent (sys : FileSys) (p : String) : String :=
  match sys.lookupFile p with
  | some r => r.content.getD ""
  | none => ""

/-- `SystemModule.md5(path)`: digest of the file's current content. -/
def FileSys.md5 (sys : FileSys) (p : String) : String :=
  match sys.lookupFile p with
  | some r => md5Digest r.content
  | none => md5Digest none

/-- `SystemModule.md5_str(bytes)`. -/
def FileSys.md5Str (_sys : FileSys) (c : Option String) : String :=
  md5Digest c

def FileSys.owner (sys : FileSys) (p : String) : String :=
  match sys.lookupFile p with
  | some r => r.owner
  | none => ""

def FileSys.group (sys : FileSys) (p : String) : String :=
  match sys.lookupFile p with
  | some r => r.group
  | none => ""

def FileSys.mode (sys : FileSys) (p : String) : String :=
  match sys.lookupFile p with
  | some r => r.mode
  | none => ""

def FileSys.modTime (sys : FileSys) (p : String) : String :=
  match sys.lookupFile p with
  | some r => r.modTime
  | none => ""

def FileSys.cTime (sys : FileSys) (p : String) : String :=
  match sys.lookupFile p with
  | some r => r.cTime
  | none => ""

/-- `SystemModule.get_default_mode(path)`. -/
def FileSys.getDefaultMode (sys : FileSys) (_p : String) : String :=
  sys.defaultMode

/-- Replace the record stored for `p`, or insert it when absent. -/
def FileSys.storeFile (sys : FileSys) (p : String) (r : FileRec) : FileSys :=
  { sys with files :=
      if (List.lookup p sys.files).isSome then
        sys.files.map (fun kv => if kv.1 = p then (p, r) else kv)
      else
        (p, r) :: sys.files }

/-- `SystemModule.create_file`: creates an empty file (only called when the
path does not exist). -/
def FileSys.createFile (sys : FileSys) (p : String) : FileSys :=
  sys.storeFile p ⟨some "", sys.currentUser, sys.currentUser, sys.defaultMode,
                   sys.clock, sys.clock⟩

/-- `SystemModule.update_meta(path, owner, group, mode)`. -/
def FileSys.updateMeta (sys : FileSys) (p owner group mode : String) : FileSys :=
  match sys.lookupFile p with
  | some r => sys.storeFile p { r with owner := owner, group := group, mode := mode }
  | none => sys

/-- `SystemModule.set_content(path, content)`: writes the resolved content
(creating the file when absent) and refreshes the modification time. -/
def FileSys.setContent (sys : FileSys) (p : String) (c : Option String) : FileSys :=
  match sys.lookupFile p with
  | some r => sys.storeFile p { r with content := c, modTime := sys.clock }
  | none => sys.storeFile p ⟨c, sys.currentUser, sys.currentUser, sys.defaultMode,
                             sys.clock, sys.clock⟩

/-- `SystemModule.delete(path)`: removes the file, except on resources where
the external deletion fails and the file is left in place. -/
def FileSys.fdel (sys : FileSys) (p : String) : FileSys :=
  if p ∈ sys.failingDeletes then sys
  else { sys with files := sys.files.filter (fun kv => kv.1 ≠ p) }

/-- Python truthiness of an optional-string attribute:
`attributes.get(k)` is truthy iff the key is present with a non-empty value. -/
def truthy : Option String → Bool
  | some s => s ≠ ""
  | none => false

/-- The body of `FilesController.read` after the mandatory check, updating
the controller's `status` dict in place exactly as the source does:
`present` is always written; content/md5 only on request, and the metadata
fields only when the file is present. -/
def filesReadStatus (sys : FileSys) (resId : String) (attrs : ReadAttrs)
    (st : FileState) : FileState :=
  let present := sys.isFile resId
  let st := { st with present := some present }
  if present then
    let st := if attrs.get_content then { st with content := some (sys.getContent resId) } else st
    let st := if attrs.md5 then { st with md5 := some (sys.md5 resId) } else st
    { st with owner := some (sys.owner resId),
              group := some (sys.group resId),
              mode := some (sys.mode resId),
              mod_time := some (sys.modTime resId),
              c_time := some (sys.cTime resId) }
  else st

/-- `FilesController.read` as dispatched to by the agent. Modelled from the
spec: the base `ResourcesController` (absent from the sources) resets the
controller's `status` mapping on each dispatched call, so a `ResourceState`
is "produced fresh by every read()" — the status dict starts empty. -/
def filesRead (sys : FileSys) (resId : String) (attrs : ReadAttrs) : FileState :=
  filesReadStatus sys resId attrs emptyFileState

/-- `FilesController.read` including the leading `check_mandatory(res_id)`.
Modelled from the spec: `check_mandatory` (base class, absent from the
sources) raises `MandatoryFieldMissing` when res_id is empty or missing,
before any `SystemModule` call. -/
def filesReadE (sys : FileSys) (resId : String) (attrs : ReadAttrs) :
    Except RErr FileState :=
  if resId = "" then Except.error RErr.mandatoryFieldMissing
  else Except.ok (filesRead sys resId attrs)

/-- The attribute options recognised by `FilesController.create`/`update`. -/
structure CreateAttrs where
  owner : Option String
  group : Option String
  mode : Option String
  content : Option String
  content_by_url : Option String
  encoding : Option String
  get_content : Bool
  monitor : Option Bool
  deriving DecidableEq, Repr

/-- `FilesController._get_owner`: default is the current user; an existing
path's owner wins over the default; a truthy `owner` attribute wins over
both. -/
def getOwnerAttr (sys : FileSys) (p : String) (a : CreateAttrs) : String :=
  let owner := sys.currentUser
  let owner := if sys.fsExists p then sys.owner p else owner
  if truthy a.owner then a.owner.getD owner else owner

/-- `FilesController._get_group`: the default is `getpass.getuser()` (the
user name, as in the source); an existing path's group, then a truthy
`group` attribute, win over it. -/
def getGroupAttr (sys : FileSys) (p : String) (a : CreateAttrs) : String :=
  let group := sys.currentUser
  let group := if sys.fsExists p then sys.group p else group
  if truthy a.group then a.group.getD group else group

/-- Is every character an octal digit? Models `int(s, 8)` succeeding. -/
def isOctalString (s : String) : Bool :=
  s ≠ "" && s.all (fun ch => '0' ≤ ch ∧ ch ≤ '7')

/-- `oct(int(s, 8))` as a string-to-string normalisation. -/
def octNormalize (s : String) : String :=
  "0".append s

/-- `FilesController._get_mode`: umask default, then the existing path's
mode, then a truthy `mode` attribute parsed as octal
(`ResourceException` on a parse failure). -/
def getModeAttr (sys : FileSys) (p : String) (a : CreateAttrs) :
    Except RErr String :=
  let mode := sys.getDefaultMode p
  let mode := if sys.fsExists p then sys.mode p else mode
  if truthy a.mode then
    match a.mode with
    | some s => if isOctalString s then Except.ok (octNormalize s) else Except.error RErr.modeParseError
    | none => Except.ok mode
  else Except.ok mode

/-- Base64 decoding stand-in: a well-formed encoded payload is marked with a
`b64:` prefix; anything else is malformed (`TypeError` in the source). -/
def b64decode (s : String) : Option String :=
  if s.take 4 = "b64:" then some (s.drop 4) else none

/-- `FilesController._get_content`: the `content` attribute, overwritten by
a fetch when `content_by_url` is truthy (`ResourceException` wrapping a
`URLError` on failure), then base64-decoded when `encoding == 'base64'`
(`ResourceException` on malformed input, including `None` content). -/
def getContentAttr (sys : FileSys) (a : CreateAttrs) :
    Except RErr (Option String) :=
  let content := a.content
  match (if truthy a.content_by_url then
           match a.content_by_url with
           | some u =>
             match List.lookup u sys.urls with
             | some body => Except.ok (some body)
             | none => Except.error RErr.transportError
           | none => Except.ok content
         else Except.ok content : Except RErr (Option String)) with
  | Except.error e => Except.error e
  | Except.ok content =>
    if a.encoding = some "base64" then
      match content with
      | some s =>
        match b64decode s with
        | some d => Except.ok (some d)
        | none => Except.error RErr.decodeError
      | none => Except.error RErr.decodeError
    else Except.ok content

/-- `FilesController.create` (and `update`, its alias): mandatory check;
resolve owner/group/mode/content; declare the baseline via `comply`
(including the digest of the intended content); create the file if absent;
apply metadata; write content; then re-read with a rebuilt attributes dict
holding only `md5=True` and, when originally requested, `get_content=True`.
Returns the final system state, the `comply` call and the returned state. -/
def filesCreate (sys : FileSys) (resId : String) (a : CreateAttrs) :
    Except RErr (FileSys × ComplyArgs × FileState) :=
  if resId = "" then Except.error RErr.mandatoryFieldMissing else
  let owner := getOwnerAttr sys resId a
  let group := getGroupAttr sys resId a
  match getModeAttr sys resId a with
  | Except.error e => Except.error e
  | Except.ok mode =>
    match getContentAttr sys a with
    | Except.error e => Except.error e
    | Except.ok content =>
      let cp : ComplyArgs :=
        { emptyComply with
            owner := some owner, group := some group, mode := some mode,
            mod_time := some sys.clock, c_time := some sys.clock,
            present := some true, md5 := some (sys.md5Str content),
            monitor := a.monitor }
      let sys := if sys.fsExists resId then sys else sys.createFile resId
      let sys := sys.updateMeta resId owner group mode
      let sys := sys.setContent resId content
      let rAttrs : ReadAttrs := ⟨a.get_content, true⟩
      Except.ok (sys, cp, filesRead sys resId rAttrs)

/-- `FilesController.update`: an alias for `create` (same code path). -/
def filesUpdate (sys : FileSys) (resId : String) (a : CreateAttrs) :
    Except RErr (FileSys × ComplyArgs × FileState) :=
  filesCreate sys resId a

/-- `FilesController.delete`: mandatory check; `comply(monitor=False)`;
snapshot the current state via `read`; request deletion; if the file is
confirmed absent, return the snapshot with `present` forced to `False`.
Modelled from the spec on the failure path: the base class keeps
`self.response` mirroring the last read, so when the file still exists the
original snapshot is returned unchanged (the spec's deliberate
partial-failure tolerance); no error is raised either way. -/
def filesDelete (sys : FileSys) (resId : String) :
    Except RErr (FileSys × ComplyArgs × FileState) :=
  if resId = "" then Except.error RErr.mandatoryFieldMissing else
  let cp := complyMonitorFalse
  let previous := filesRead sys resId noAttrs
  let sys := sys.fdel resId
  if sys.fsExists resId then
    Except.ok (sys, cp, previous)
  else
    Except.ok (sys, cp, { previous with present := some false })

/-- The group-information record returned by
`SystemModule.get_group_infos`. -/
structure GroupInfos where
  gname : String
  gid : Option Nat
  deriving DecidableEq, Repr

/-- The group-side `SystemModule` state: the groups known to the system. -/
structure GroupSys where
  groups : List (String × GroupInfos)
  deriving DecidableEq, Repr

/-- `SystemModule.exists(name)` for groups. -/
def GroupSys.gexists (s : GroupSys) (n : String) : Bool :=
  (List.lookup n s.groups).isSome

/-- `SystemModule.get_group_infos(name)`: fails when the name is absent
(including a `None` name). -/
def getGroupInfos (s : GroupSys) (n : Option String) : Except RErr GroupInfos :=
  match n with
  | none => Except.error RErr.resourceNotFound
  | some nm =>
    match List.lookup nm s.groups with
    | some i => Except.ok i
    | none => Except.error RErr.resourceNotFound

/-- `SystemModule.group_add(name, gid)`. -/
def GroupSys.groupAdd (s : GroupSys) (n : String) (gid : Option Nat) : GroupSys :=
  ⟨(n, ⟨n, gid⟩) :: s.groups⟩

/-- `SystemModule.group_mod(name, new_name, gid)`: renames and/or changes
the gid of an existing group. -/
def GroupSys.groupMod (s : GroupSys) (n : String) (newName : Option String)
    (gid : Option Nat) : GroupSys :=
  ⟨s.groups.map (fun kv =>
      if kv.1 = n then
        let nm := newName.getD kv.2.gname
        (nm, ⟨nm, match gid with | some g => some g | none => kv.2.gid⟩)
      else kv)⟩

/-- `SystemModule.group_del(name)`. -/
def GroupSys.groupDel (s : GroupSys) (n : String) : GroupSys :=
  ⟨s.groups.filter (fun kv => kv.1 ≠ n)⟩

/-- The attribute options consulted by the groups controller. -/
structure GroupAttrs where
  gid : Option Nat
  new_name : Option String
  monitor : Option Bool
  deriving DecidableEq, Repr

/-- Python truthiness of `attributes.get('gid')` in `if new_name or gid:`:
present and non-zero. -/
def truthyNat : Option Nat → Bool
  | some n => n ≠ 0
  | none => false

/-- `GroupsController.read`: no mandatory-field validation at all, the
res_id is handed straight to `SystemModule.get_group_infos`. -/
def groupsRead (s : GroupSys) (resId : Option String) : Except RErr GroupInfos :=
  getGroupInfos s resId

/-- `GroupsController.create`: `comply(name=res_id, present=True, gid=gid)`,
then `group_add`, then a live read of the new group. Returns the final
system state, the list of `comply` calls made, and the returned state. -/
def groupsCreate (s : GroupSys) (resId : String) (a : GroupAttrs) :
    GroupSys × List ComplyArgs × Except RErr GroupInfos :=
  let cp : ComplyArgs :=
    { emptyComply with name := some resId, present := some true, gid := a.gid }
  let s := s.groupAdd resId a.gid
  (s, [cp], getGroupInfos s (some resId))

/-- `GroupsController.update`: unconditionally declares
`comply(name=new_name, present=True, gid=gid, monitor=monitor)` first; then,
if the group exists, either modifies and reads back under `new_name` (when
`new_name or gid` is truthy) or does a plain read; if the group does not
exist, falls back to `create` — whose return value the source discards,
returning the controller's prior `self.status` (`st0`) instead. -/
def groupsUpdate (s : GroupSys) (st0 : Option GroupInfos) (resId : String)
    (a : GroupAttrs) : GroupSys × List ComplyArgs × Except RErr (Option GroupInfos) :=
  let cp : ComplyArgs :=
    { emptyComply with name := a.new_name, present := some true,
                       gid := a.gid, monitor := a.monitor }
  if s.gexists resId then
    if truthy a.new_name || truthyNat a.gid then
      let s := s.groupMod resId a.new_name a.gid
      match getGroupInfos s a.new_name with
      | Except.error e => (s, [cp], Except.error e)
      | Except.ok i => (s, [cp], Except.ok (some i))
    else
      match getGroupInfos s (some resId) with
      | Except.error e => (s, [cp], Except.error e)
      | Except.ok i => (s, [cp], Except.ok (some i))
  else
    match groupsCreate s resId a with
    | (s, cps, Except.error e) => (s, cp :: cps, Except.error e)
    | (s, cps, Except.ok _) => (s, cp :: cps, Except.ok st0)

/-- `GroupsController.delete`: `group_del` first, then
`comply(monitor=False)`, then a live post-delete read (which fails whenever
the deletion actually removed the group). -/
def groupsDelete (s : GroupSys) (resId : String) :
    GroupSys × List ComplyArgs × Except RErr GroupInfos :=
  let s := s.groupDel resId
  (s, [complyMonitorFalse], getGroupInfos s (some resId))

/-- `GroupsController.monitor(persisted_state, current_state)`: iterate the
keys of the persisted state and compare `current_state.get(key)` with
`persisted_state.get(key)`, breaking on the first mismatch. -/
def groupsMonitor {α : Type} [DecidableEq α] (persisted current : List (String × α)) : Bool :=
  (persisted.map Prod.fst).all
    (fun k => decide (List.lookup k current = List.lookup k persisted))

/-- One persisted baseline record iterated by `FilesController.monitor`:
`state["resource_id"]` and `state["status"]`. -/
structure MonRecord where
  resource_id : String
  status : FileState
  deriving DecidableEq, Repr

/-- The abort modes of the monitor loop that escape the per-record handlers:
referencing the never-bound local `current_md5` (`NameError`) and indexing
a missing `mod_time` key (`KeyError`). Neither is a `ResourceException`, so
neither is caught. -/
inductive MonAbort where
  | nameError
  | keyError
  deriving DecidableEq, Repr

/-- Observable events of one `FilesController.monitor` pass: lock
acquisitions/releases of `self._lock`, the live `read`, the error log on a
failed read, the `md5` recomputation, `self._publish(res_id, state,
self.response)` and `self.persister.persist(state)`. -/
inductive MEvent where
  | acquire
  | release
  | readEvt (resId : String)
  | logError (resId : String)
  | md5Evt (resId : String)
  | publish (resId : String) (rcd : MonRecord) (live : FileState)
  | persist (rcd : MonRecord)
  deriving DecidableEq, Repr

/-- One iteration of the `FilesController.monitor` loop, transcribed from
the source: under the lock, try the live read — on a `ResourceException`
only log, leaving `self.response` (`response`) holding its previous value
and falling through to the comparisons; compare `present` (publish and move
on when it differs); compare name/owner/group/mode; when `mod_time`
differs, recompute the digest under a second lock acquisition — on a
`ResourceException` keep the previous `current_md5` binding (`NameError`
when it was never bound) — and either confirm drift or persist the record
with the live `mod_time` written through; finally publish when drift is
pending. Returns the updated `response` and `current_md5` carried to the
next iteration, with the events of this iteration. -/
def monStep (sys : FileSys) (response : FileState) (curMd5 : Option String)
    (rcd : MonRecord) : Except MonAbort (FileState × Option String × List MEvent) :=
  let rid := rcd.resource_id
  let readFailed := rid ∈ sys.failingReads
  let ev1 : List MEvent :=
    if readFailed then [MEvent.acquire, MEvent.logError rid, MEvent.release]
    else [MEvent.acquire, MEvent.readEvt rid, MEvent.release]
  let response := if readFailed then response else filesRead sys rid noAttrs
  let wanted := rcd.status
  let current := response
  if wanted.present ≠ current.present then
    Except.ok (response, curMd5, ev1 ++ [MEvent.publish rid rcd response])
  else
    let changed : Bool :=
      decide (wanted.name ≠ current.name) || decide (wanted.owner ≠ current.owner) ||
      decide (wanted.group ≠ current.group) || decide (wanted.mode ≠ current.mode)
    if wanted.mod_time ≠ current.mod_time then
      let md5Failed := rid ∈ sys.failingMd5
      let ev2 : List MEvent :=
        if md5Failed then [MEvent.acquire, MEvent.release]
        else [MEvent.acquire, MEvent.md5Evt rid, MEvent.release]
      let curMd5 := if md5Failed then curMd5 else some (sys.md5 rid)
      match curMd5 with
      | none => Except.error MonAbort.nameError
      | some m =>
        if some m ≠ wanted.md5 then
          Except.ok (response, some m, ev1 ++ ev2 ++ [MEvent.publish rid rcd response])
        else
          match current.mod_time with
          | none => Except.error MonAbort.keyError
          | some mt =>
            let rcd2 : MonRecord := ⟨rcd.resource_id, { wanted with mod_time := some mt }⟩
            if changed then
              Except.ok (response, some m,
                ev1 ++ ev2 ++ [MEvent.persist rcd2, MEvent.publish rid rcd response])
            else
              Except.ok (response, some m, ev1 ++ ev2 ++ [MEvent.persist rcd2])
    else
      if changed then Except.ok (response, curMd5, ev1 ++ [MEvent.publish rid rcd response])
      else Except.ok (response, curMd5, ev1)

/-- The full `FilesController.monitor` pass over the persisted records,
threading `self.response` and the `current_md5` local across iterations;
an uncaught `NameError`/`KeyError` aborts the remaining scan. -/
def monitorRun (sys : FileSys) (response : FileState) (curMd5 : Option String) :
    List MonRecord → Except MonAbort (FileState × Option String × List MEvent)
  | [] => Except.ok (response, curMd5, [])
  | rcd :: rest =>
    match monStep sys response curMd5 rcd with
    | Except.error e => Except.error e
    | Except.ok (resp2, md2, evs) =>
      match monitorRun sys resp2 md2 rest with
      | Except.error e => Except.error e
      | Except.ok (respF, mdF, evsF) => Except.ok (respF, mdF, evs ++ evsF)

/-- The events of an event list strictly between the first live-read event
for `resId` and the first digest recomputation for `resId`; `none` when no
read event occurs. -/
def betweenReadMd5 (resId : String) : List MEvent → Option (List MEvent)
  | [] => none
  | e :: es =>
    if e = MEvent.readEvt resId then
      some (es.takeWhile (fun x => x ≠ MEvent.md5Evt resId))
    else betweenReadMd5 resId es

/-- The live read and the digest recomputation for `resId` happen under one
continuous lock acquisition: no `release` of the lock occurs between the
read event and the digest event. -/
def singleLockSpan (resId : String) (evs : List MEvent) : Bool :=
  match betweenReadMd5 resId evs with
  | none => true
  | some mid => ¬ mid.contains MEvent.release

/-- Number of publish events for a given resource in an event list. -/
def publishCount (resId : String) (evs : List MEvent) : Nat :=
  evs.countP (fun e =>
    match e with
    | MEvent.publish r _ _ => r = resId
    | _ => false)

/-- A one-file system for the self-heal scenario: `f` is live with content
`x` and modification time `t9`. -/
def fsys6 : FileSys :=
  ⟨[("f", ⟨some "x", "root", "root", "0644", "t9", "t0"⟩)],
   "u", "0644", "tc", [], [], [], []⟩

/-- A baseline record for `f` matching the live state of `fsys6` except for
a stale `mod_time`, with the baseline digest equal to the live digest. -/
def base6 : FileState :=
  ⟨some true, none, some "root", some "root", some "0644", some "OLD",
   some "t0", some "#x", none⟩

/-- A two-record monitor scan in which the live read of the second record
(`f2`) raises a `ResourceException`: `f1` is live and its baseline matches
it exactly. -/
def fsys2 : FileSys :=
  ⟨[("f1", ⟨some "hello", "root", "root", "0644", "t1", "t0"⟩)],
   "u", "0644", "tc", [], ["f2"], [], []⟩

/-- The live state of `f1` in `fsys2`, as read by the monitor. -/
def live2 : FileState := filesRead fsys2 "f1" noAttrs

/-- Baseline record for `f2` declaring it absent. -/
def rec2b : MonRecord := ⟨"f2", { emptyFileState with present := some false }⟩

/-- A system in which the very first digest recomputation of the scan
raises: `g1` is live with a stale baseline `mod_time`, and `md5(g1)`
fails. -/
def fsysN : FileSys :=
  ⟨[("g1", ⟨some "x", "root", "root", "0644", "t9", "t0"⟩)],
   "u", "0644", "tc", [], [], ["g1"], []⟩

/-- Baseline record for `g1` matching the live state except `mod_time`. -/
def recN1 : MonRecord :=
  ⟨"g1", ⟨some true, none, some "root", some "root", some "0644", some "OLD",
          some "t0", some "#x", none⟩⟩

/-- Baseline record for a second resource `g2`, never reached. -/
def recN2 : MonRecord := ⟨"g2", { emptyFileState with present := some false }⟩

/-- A one-file system for the lock-scope scenario: `f` is live with content
`y` and modification time `t2`, and its baseline has a stale `mod_time` and
a differing digest, so the monitor recomputes the digest. -/
def fsys9 : FileSys :=
  ⟨[("f", ⟨some "y", "root", "root", "0644", "t2", "t0"⟩)],
   "u", "0644", "tc", [], [], [], []⟩

/-- Baseline record for `f` in `fsys9` with stale `mod_time` and a digest
that no longer matches. -/
def rcd9 : MonRecord :=
  ⟨"f", ⟨some true, none, some "root", some "root", some "0644", some "OLD",
         some "t0", some "#zzz", none⟩⟩

/-- A second lock-scope scenario (`w`, digest unchanged, persist path). -/
def fsys9w : FileSys :=
  ⟨[("w", ⟨some "v", "root", "root", "0644", "t3", "t0"⟩)],
   "u", "0644", "tc", [], [], [], []⟩

/-- Baseline record for `w` in `fsys9w`: stale `mod_time`, equal digest. -/
def rcd9w : MonRecord :=
  ⟨"w", ⟨some true, none, some "root", some "root", some "0644", some "OLD",
         some "t0", some "#v", none⟩⟩

theorem lookup_mem_keys {α : Type} (k : String) (v : α) :
    ∀ l : List (String × α), List.lookup k l = some v → k ∈ l.map Prod.fst := by
  intro l
  induction l with
  | nil => intro h; simp [List.lookup] at h
  | cons hd tl ih =>
    intro h
    by_cases hk : k = hd.1
    · simp [hk]
    · rw [List.lookup] at h
      have hb : (k == hd.1) = false := by simp [hk]
      rw [hb] at h
      simp only [List.map_cons, List.mem_cons]
      exact Or.inr (ih h)

theorem mem_keys_lookup {α : Type} (k : String) :
    ∀ l : List (String × α), k ∈ l.map Prod.fst → ∃ v, List.lookup k l = some v := by
  intro l
  induction l with
  | nil => intro h; simp at h
  | cons hd tl ih =>
    intro h
    by_cases hk : k = hd.1
    · refine ⟨hd.2, ?_⟩
      rw [List.lookup]
      have hb : (k == hd.1) = true := by simp [hk]
      rw [hb]
    · have : k ∈ tl.map Prod.fst := by
        simp only [List.map_cons, List.mem_cons] at h
        exact h.resolve_left hk
      obtain ⟨v, hv⟩ := ih this
      refine ⟨v, ?_⟩
      rw [List.lookup]
      have hb : (k == hd.1) = false := by simp [hk]
      rw [hb]
      exact hv

theorem allCongrHelper {β : Type} (l : List β) (p q : β → Bool)
    (h : ∀ x ∈ l, p x = q x) : l.all p = l.all q := by
  induction l with
  | nil => rfl
  | cons hd tl ih =>
    rw [List.all_cons, List.all_cons, h hd (by simp),
        ih (fun x hx => h x (by simp [hx]))]

/-- C7: `GroupsController.monitor(persisted_state, current_state)` returns
true iff every key present in `persisted_state` has an equal value in
`current_state`; entries whose key occurs only in `current_state` never
affect the result. -/
theorem groupsMonitor_compliance_iff {α : Type} [DecidableEq α]
    (persisted current : List (String × α)) :
    (groupsMonitor persisted current = true ↔
      ∀ k v, List.lookup k persisted = some v → List.lookup k current = some v) ∧
    (∀ k, k ∉ persisted.map Prod.fst → ∀ v,
      groupsMonitor persisted ((k, v) :: current) = groupsMonitor persisted current) := by
  constructor
  · rw [groupsMonitor, List.all_eq_true]
    constructor
    · intro h k v hkv
      have hk := lookup_mem_keys k v persisted hkv
      have := h k hk
      rw [decide_eq_true_eq] at this
      rw [this, hkv]
    · intro h k hk
      rw [decide_eq_true_eq]
      obtain ⟨v, hv⟩ := mem_keys_lookup k persisted hk
      rw [hv, h k v hv]
  · intro k hk v
    have hpt : ∀ x ∈ persisted.map Prod.fst,
        (decide (List.lookup x ((k, v) :: current) = List.lookup x persisted)) =
        (decide (List.lookup x current = List.lookup x persisted)) := by
      intro x hx
      have hne : x ≠ k := fun he => hk (he ▸ hx)
      have hb : (x == k) = false := by simp [hne]
      rw [List.lookup, hb]
    rw [groupsMonitor, groupsMonitor, allCongrHelper _ _ _ hpt]

/-- Witness for the C7 theorem at the spec's own example. -/
theorem groupsMonitor_compliance_iff_witness :
    groupsMonitor [("gid", "10")] [("gid", "10"), ("owner", "root")] = true := by
  apply (groupsMonitor_compliance_iff [("gid", "10")] [("gid", "10"), ("owner", "root")]).1.mpr
  intro k v h
  by_cases hk : k = "gid"
  · subst hk
    rw [List.lookup] at h ⊢
    simp at h ⊢
    exact h
  · rw [List.lookup] at h
    have hb : (k == "gid") = false := by simp [hk]
    rw [hb] at h
    simp [List.lookup] at h

/-- The state built by a dispatched `FilesController.read`, characterized
field by field as a function of the live system, the res_id and the
requested attribute options alone. -/
theorem filesRead_eq (sys : FileSys) (resId : String) (a : ReadAttrs) :
    filesRead sys resId a =
      (if sys.isFile resId then
        { present := some true,
          name := none,
          owner := some (sys.owner resId),
          group := some (sys.group resId),
          mode := some (sys.mode resId),
          mod_time := some (sys.modTime resId),
          c_time := some (sys.cTime resId),
          md5 := if a.md5 then some (sys.md5 resId) else none,
          content := if a.get_content then some (sys.getContent resId) else none }
      else { emptyFileState with present := some false }) := by
  rw [filesRead, filesReadStatus]
  by_cases hp : sys.isFile resId = true
  · by_cases h1 : a.get_content <;> by_cases h2 : a.md5 <;>
      simp [h1, h2, hp, emptyFileState]
  · have hp2 : sys.isFile resId = false := by simpa using hp
    simp [hp2, emptyFileState]

/-- C5: a dispatched `FilesController.read` produces its `ResourceState`
fresh: the mandatory check aside, the returned state is exactly the record
of the fields computed during that call from the live system and the
requested attribute options, so two invocations with the same arguments
against the same live system are equal and no field of an earlier call is
carried over. -/
theorem filesRead_fresh_characterization (sys : FileSys) (resId : String)
    (a : ReadAttrs) (h : resId ≠ "") :
    filesReadE sys resId a = Except.ok
      (if sys.isFile resId then
        { present := some true,
          name := none,
          owner := some (sys.owner resId),
          group := some (sys.group resId),
          mode := some (sys.mode resId),
          mod_time := some (sys.modTime resId),
          c_time := some (sys.cTime resId),
          md5 := if a.md5 then some (sys.md5 resId) else none,
          content := if a.get_content then some (sys.getContent resId) else none }
      else { emptyFileState with present := some false }) := by
  rw [filesReadE, if_neg h, filesRead_eq]

/-- Witness for the C5 theorem on a one-file system. -/
theorem filesRead_fresh_characterization_witness :
    filesReadE (⟨[("f", ⟨some "x", "root", "root", "0644", "t1", "t0"⟩)],
        "u", "0644", "tc", [], [], [], []⟩ : FileSys) "f" ⟨false, true⟩ =
      Except.ok ⟨some true, none, some "root", some "root", some "0644",
                 some "t1", some "t0", some "#x", none⟩ := by
  rw [filesRead_fresh_characterization _ _ _ (by decide)]
  rfl

/-- C8 counterexample: `GroupsController.read` performs no mandatory-field
validation — with an empty res_id it hands the id straight to
`SystemModule.get_group_infos` and returns that call's result instead of
failing with `MandatoryFieldMissing`. -/
theorem groupsRead_skips_mandatory_check_cex :
    groupsRead (⟨[("", ⟨"", some 7⟩)]⟩ : GroupSys) (some "") =
      Except.ok ⟨"", some 7⟩ ∧
    groupsRead (⟨[("", ⟨"", some 7⟩)]⟩ : GroupSys) (some "") ≠
      Except.error RErr.mandatoryFieldMissing := by
  constructor
  · rfl
  · decide

/-- C8 (amended): only `FilesController.read` guards an empty res_id with
`MandatoryFieldMissing` before touching the `SystemModule`; its result on an
empty res_id is the error whatever the system state is. `GroupsController.read`
has no such check: it calls `get_group_infos` directly, and when a group
under the empty name exists the call succeeds with that group's infos. -/
theorem read_mandatory_check_files_only :
    (∀ (sys : FileSys) (a : ReadAttrs),
       filesReadE sys "" a = Except.error RErr.mandatoryFieldMissing) ∧
    (∀ (g : GroupSys) (i : GroupInfos), List.lookup "" g.groups = some i →
       groupsRead g (some "") = Except.ok i) := by
  constructor
  · intro sys a
    rw [filesReadE, if_pos rfl]
  · intro g i h
    rw [groupsRead, getGroupInfos, h]

/-- Witness for the C8 theorem at concrete states. -/
theorem read_mandatory_check_files_only_witness :
    filesReadE (⟨[], "u", "0644", "tc", [], [], [], []⟩ : FileSys) "" noAttrs =
      Except.error RErr.mandatoryFieldMissing ∧
    groupsRead (⟨[("", ⟨"", some 3⟩)]⟩ : GroupSys) (some "") =
      Except.ok ⟨"", some 3⟩ :=
  ⟨read_mandatory_check_files_only.1 _ noAttrs,
   read_mandatory_check_files_only.2 _ _ (by decide)⟩

theorem lookup_filter_ne {β : Type} (k : String) :
    ∀ l : List (String × β),
      List.lookup k (l.filter (fun kv => kv.1 ≠ k)) = none := by
  intro l
  induction l with
  | nil => rfl
  | cons hd tl ih =>
    by_cases h : hd.1 = k
    · have : (decide (hd.1 ≠ k)) = false := by simp [h]
      rw [List.filter_cons]
      rw [this]
      simpa using ih
    · have hkeep : (decide (hd.1 ≠ k)) = true := by simp [h]
      rw [List.filter_cons, hkeep]
      simp only [if_true]
      rw [List.lookup]
      have hne : ¬ k = hd.1 := fun he => h he.symm
      have hb : (k == hd.1) = false := by simp [hne]
      rw [hb]
      exact ih

/-- A file that still exists after `SystemModule.delete` existed before the
deletion request (the request failed and left it in place). -/
theorem fdel_still_exists {sys : FileSys} {resId : String}
    (h : (sys.fdel resId).fsExists resId = true) : sys.isFile resId = true := by
  rw [FileSys.fdel] at h
  by_cases hf : resId ∈ sys.failingDeletes
  · rw [if_pos hf] at h
    exact h
  · rw [if_neg hf] at h
    rw [FileSys.fsExists, FileSys.lookupFile] at h
    rw [lookup_filter_ne] at h
    simp at h

/-- C1: when the deletion requested by `FilesController.delete` does not
take effect (the file still exists afterwards), `delete` returns without
error, and the returned state is the snapshot read before the deletion
request, unchanged, with `present` still true. -/
theorem filesDelete_failed_keeps_snapshot (sys : FileSys) (resId : String)
    (h : resId ≠ "")
    (hstill : (sys.fdel resId).fsExists resId = true) :
    filesDelete sys resId =
      Except.ok (sys.fdel resId, complyMonitorFalse, filesRead sys resId noAttrs) ∧
    (filesRead sys resId noAttrs).present = some true := by
  constructor
  · rw [filesDelete, if_neg h, if_pos hstill]
  · rw [filesRead_eq, if_pos (fdel_still_exists hstill)]

/-- Witness for the C1 theorem: a file whose external deletion fails. -/
theorem filesDelete_failed_keeps_snapshot_witness :
    filesDelete (⟨[("f", ⟨some "x", "root", "root", "0644", "t1", "t0"⟩)],
        "u", "0644", "tc", [], [], [], ["f"]⟩ : FileSys) "f" =
      Except.ok
        ((⟨[("f", ⟨some "x", "root", "root", "0644", "t1", "t0"⟩)],
           "u", "0644", "tc", [], [], [], ["f"]⟩ : FileSys).fdel "f",
         complyMonitorFalse,
         filesRead (⟨[("f", ⟨some "x", "root", "root", "0644", "t1", "t0"⟩)],
           "u", "0644", "tc", [], [], [], ["f"]⟩ : FileSys) "f" noAttrs) ∧
    (filesRead (⟨[("f", ⟨some "x", "root", "root", "0644", "t1", "t0"⟩)],
       "u", "0644", "tc", [], [], [], ["f"]⟩ : FileSys) "f" noAttrs).present =
      some true :=
  filesDelete_failed_keeps_snapshot _ _ (by decide) (by decide)

/-- C3 counterexample: at a concrete file and a concrete group, the record
declared via `comply` by both delete operations carries only
`monitor=False`; its `present` field is absent (`none`), not `false`. -/
theorem delete_comply_present_absent_cex :
    (filesDelete (⟨[("f", ⟨some "x", "root", "root", "0644", "t1", "t0"⟩)],
        "u", "0644", "tc", [], [], [], []⟩ : FileSys) "f").toOption.map
      (fun t => t.2.1) = some complyMonitorFalse ∧
    (groupsDelete (⟨[("g", ⟨"g", some 10⟩)]⟩ : GroupSys) "g").2.1 =
      [complyMonitorFalse] ∧
    complyMonitorFalse.present ≠ some false := by
  refine ⟨rfl, rfl, by decide⟩

/-- C3 (amended): `delete` on both controllers calls `comply` with the
single keyword `monitor=False`: the declared record contains no `present`
field at all (and no other attribute), so `present=false` is not declared
into the baseline. -/
theorem delete_declares_only_monitor_false (sys : FileSys) (resId : String)
    (h : resId ≠ "") (g : GroupSys) (gname : String) :
    (∃ s st, filesDelete sys resId = Except.ok (s, complyMonitorFalse, st)) ∧
    (groupsDelete g gname).2.1 = [complyMonitorFalse] ∧
    complyMonitorFalse = { emptyComply with monitor := some false } := by
  refine ⟨?_, rfl, rfl⟩
  rw [filesDelete, if_neg h]
  by_cases hex : (sys.fdel resId).fsExists resId = true
  · exact ⟨sys.fdel resId, filesRead sys resId noAttrs, by rw [if_pos hex]⟩
  · exact ⟨sys.fdel resId,
      { filesRead sys resId noAttrs with present := some false }, by rw [if_neg hex]⟩

/-- Witness for the C3 amended theorem at concrete states. -/
theorem delete_declares_only_monitor_false_witness :
    (∃ s st, filesDelete (⟨[], "u", "0644", "tc", [], [], [], []⟩ : FileSys) "f" =
       Except.ok (s, complyMonitorFalse, st)) ∧
    (groupsDelete (⟨[]⟩ : GroupSys) "g").2.1 = [complyMonitorFalse] ∧
    complyMonitorFalse = { emptyComply with monitor := some false } :=
  delete_declares_only_monitor_false _ "f" (by decide) _ "g"

/-- C4 counterexample: with no group "g1" on the system,
`update("g1", {gid: 5})` does not behave identically to
`create("g1", {gid: 5})`: the state it returns is the controller's prior
status, not the state `create` read back, and it declares an extra baseline
before `create`'s declaration. -/
theorem groupsUpdate_missing_differs_from_create_cex :
    (groupsUpdate (⟨[]⟩ : GroupSys) none "g1" ⟨some 5, none, none⟩).2.2 ≠
      ((groupsCreate (⟨[]⟩ : GroupSys) "g1" ⟨some 5, none, none⟩).2.2).map some ∧
    (groupsUpdate (⟨[]⟩ : GroupSys) none "g1" ⟨some 5, none, none⟩).2.1 ≠
      (groupsCreate (⟨[]⟩ : GroupSys) "g1" ⟨some 5, none, none⟩).2.1 := by
  constructor
  · decide
  · decide

/-- C4 (amended): on a missing group, `update` performs the same
`SystemModule` mutations as `create` (it calls `create`, reaching the same
final system state), but first declares an additional baseline
`{name=new_name, present=True, gid, monitor}`, and it discards the state
`create` read back, returning the controller's prior status instead. -/
theorem groupsUpdate_missing_fallback (s : GroupSys) (st0 : Option GroupInfos)
    (resId : String) (a : GroupAttrs) (h : s.gexists resId = false) :
    (groupsUpdate s st0 resId a).1 = (groupsCreate s resId a).1 ∧
    (groupsUpdate s st0 resId a).2.1 =
      { emptyComply with name := a.new_name, present := some true,
                         gid := a.gid, monitor := a.monitor }
        :: (groupsCreate s resId a).2.1 ∧
    (groupsUpdate s st0 resId a).2.2 = Except.ok st0 := by
  have hok : getGroupInfos (s.groupAdd resId a.gid) (some resId) =
      Except.ok ⟨resId, a.gid⟩ := by
    rw [getGroupInfos, GroupSys.groupAdd]
    simp [List.lookup]
  rw [groupsUpdate, if_neg (by simp [h]), groupsCreate]
  simp only [hok]
  exact ⟨trivial, trivial, trivial⟩

/-- Witness for the C4 amended theorem at a concrete system. -/
theorem groupsUpdate_missing_fallback_witness :
    (groupsUpdate (⟨[("h", ⟨"h", some 1⟩)]⟩ : GroupSys) none "g2" ⟨some 6, none, none⟩).1 =
      (groupsCreate (⟨[("h", ⟨"h", some 1⟩)]⟩ : GroupSys) "g2" ⟨some 6, none, none⟩).1 ∧
    (groupsUpdate (⟨[("h", ⟨"h", some 1⟩)]⟩ : GroupSys) none "g2" ⟨some 6, none, none⟩).2.1 =
      { emptyComply with name := none, present := some true,
                         gid := some 6, monitor := none }
        :: (groupsCreate (⟨[("h", ⟨"h", some 1⟩)]⟩ : GroupSys) "g2" ⟨some 6, none, none⟩).2.1 ∧
    (groupsUpdate (⟨[("h", ⟨"h", some 1⟩)]⟩ : GroupSys) none "g2" ⟨some 6, none, none⟩).2.2 =
      Except.ok none :=
  groupsUpdate_missing_fallback _ none "g2" ⟨some 6, none, none⟩ (by decide)

theorem lookup_map_replace {β : Type} (p : String) (r : β) :
    ∀ l : List (String × β), (List.lookup p l).isSome = true →
      List.lookup p (l.map (fun kv => if kv.1 = p then (p, r) else kv)) = some r := by
  intro l
  induction l with
  | nil => intro h; simp [List.lookup] at h
  | cons hd tl ih =>
    intro h
    by_cases hh : hd.1 = p
    · rw [List.map_cons, if_pos hh, List.lookup]
      simp
    · rw [List.map_cons, if_neg hh, List.lookup]
      have hne : ¬ p = hd.1 := fun he => hh he.symm
      have hb : (p == hd.1) = false := by simp [hne]
      rw [hb]
      rw [List.lookup] at h
      rw [hb] at h
      exact ih h

/-- After `storeFile`, the stored record is what is looked up. -/
theorem storeFile_lookup (sys : FileSys) (p : String) (r : FileRec) :
    (sys.storeFile p r).lookupFile p = some r := by
  rw [FileSys.storeFile, FileSys.lookupFile]
  by_cases h : (List.lookup p sys.files).isSome = true
  · simp only [h, if_true]
    exact lookup_map_replace p r sys.files h
  · simp only [h, if_false]
    simp [List.lookup]

/-- `set_content` leaves the file present on the system. -/
theorem setContent_isFile (sys : FileSys) (p : String) (c : Option String) :
    (sys.setContent p c).isFile p = true := by
  rw [FileSys.setContent]
  cases hl : sys.lookupFile p with
  | some r => rw [FileSys.isFile, storeFile_lookup]; rfl
  | none => rw [FileSys.isFile, storeFile_lookup]; rfl

/-- C10: the state returned by `FilesController.create` (and its alias
`update`) is a re-read performed with a rebuilt attributes dict holding only
`md5=True` and, when the caller passed it, `get_content=True` — every other
caller-supplied attribute option is discarded before this final read.
Consequently the returned state always carries the md5 digest of the file
even when the caller did not request it, and carries the content exactly
when the caller passed `get_content`. -/
theorem filesCreate_read_attrs_rebuilt (sys : FileSys) (resId : String)
    (a : CreateAttrs) (s2 : FileSys) (cp : ComplyArgs) (st : FileState)
    (h : filesCreate sys resId a = Except.ok (s2, cp, st)) :
    st = filesRead s2 resId ⟨a.get_content, true⟩ ∧
    st.md5 = some (s2.md5 resId) ∧
    (st.content = if a.get_content then some (s2.getContent resId) else none) ∧
    filesUpdate sys resId a = filesCreate sys resId a := by
  rw [filesCreate] at h
  by_cases h0 : resId = ""
  · rw [if_pos h0] at h
    exact absurd h (by simp)
  · rw [if_neg h0] at h
    cases hm : getModeAttr sys resId a with
    | error e => rw [hm] at h; exact absurd h (by simp)
    | ok mode =>
      rw [hm] at h
      cases hc : getContentAttr sys a with
      | error e => rw [hc] at h; exact absurd h (by simp)
      | ok content =>
        rw [hc] at h
        simp only [Except.ok.injEq, Prod.mk.injEq] at h
        obtain ⟨hs2, _hcp, hst⟩ := h
        have hsfile : s2.isFile resId = true := by
          rw [← hs2]; exact setContent_isFile _ _ _
        have hread : st = filesRead s2 resId ⟨a.get_content, true⟩ := by
          rw [← hst, hs2]
        refine ⟨hread, ?_, ?_, rfl⟩
        · rw [hread, filesRead_eq, if_pos hsfile]
          simp
        · rw [hread, filesRead_eq, if_pos hsfile]

/-- Witness for the C10 theorem on a concrete create call. -/
theorem filesCreate_read_attrs_rebuilt_witness :
    (filesRead ((⟨[], "u", "0644", "tc", [], [], [], []⟩ : FileSys).createFile
        "f" |>.updateMeta "f" "u" "u" "0644" |>.setContent "f" (some "hi"))
        "f" ⟨false, true⟩).md5 =
      some (((⟨[], "u", "0644", "tc", [], [], [], []⟩ : FileSys).createFile
        "f" |>.updateMeta "f" "u" "u" "0644" |>.setContent "f" (some "hi")).md5 "f") := by
  have h := filesCreate_read_attrs_rebuilt
    (⟨[], "u", "0644", "tc", [], [], [], []⟩ : FileSys) "f"
    ⟨none, none, none, some "hi", none, none, false, none⟩ _ _ _ rfl
  exact h.2.1

/-- C6: for a baseline record whose presence flag and structural attributes
match the live state, when the baseline `mod_time` differs from the live
`mod_time` but the recomputed live digest equals the baseline digest,
`FilesController.monitor` persists the baseline with its `mod_time` updated
to the live value and publishes zero times for that resource while
processing the record. -/
theorem monitor_selfheal_updates_modtime (sys : FileSys) (resp0 : FileState)
    (md0 : Option String) (rcd : MonRecord) (mt : String)
    (h1 : rcd.resource_id ∉ sys.failingReads)
    (h2 : rcd.status.present = (filesRead sys rcd.resource_id noAttrs).present)
    (h3 : rcd.status.name = (filesRead sys rcd.resource_id noAttrs).name)
    (h4 : rcd.status.owner = (filesRead sys rcd.resource_id noAttrs).owner)
    (h5 : rcd.status.group = (filesRead sys rcd.resource_id noAttrs).group)
    (h6 : rcd.status.mode = (filesRead sys rcd.resource_id noAttrs).mode)
    (h7 : rcd.status.mod_time ≠ (filesRead sys rcd.resource_id noAttrs).mod_time)
    (h8 : rcd.resource_id ∉ sys.failingMd5)
    (h9 : rcd.status.md5 = some (sys.md5 rcd.resource_id))
    (h10 : (filesRead sys rcd.resource_id noAttrs).mod_time = some mt) :
    monStep sys resp0 md0 rcd =
      Except.ok (filesRead sys rcd.resource_id noAttrs,
        some (sys.md5 rcd.resource_id),
        [MEvent.acquire, MEvent.readEvt rcd.resource_id, MEvent.release,
         MEvent.acquire, MEvent.md5Evt rcd.resource_id, MEvent.release,
         MEvent.persist ⟨rcd.resource_id, { rcd.status with mod_time := some mt }⟩]) ∧
    publishCount rcd.resource_id
      [MEvent.acquire, MEvent.readEvt rcd.resource_id, MEvent.release,
       MEvent.acquire, MEvent.md5Evt rcd.resource_id, MEvent.release,
       MEvent.persist ⟨rcd.resource_id, { rcd.status with mod_time := some mt }⟩] = 0 := by
  constructor
  · rw [monStep]
    simp only [h1, if_neg, if_false, h2, h3, h4, h5, h6, h7, h8, h9, h10]
    simp [h2, h7, h10]
    rw [h10] at h7
    exact h7
  · rfl

/-- Witness for the C6 theorem at the `fsys6` scenario. -/
theorem monitor_selfheal_updates_modtime_witness :
    monStep fsys6 emptyFileState none ⟨"f", base6⟩ =
      Except.ok (filesRead fsys6 "f" noAttrs, some (fsys6.md5 "f"),
        [MEvent.acquire, MEvent.readEvt "f", MEvent.release,
         MEvent.acquire, MEvent.md5Evt "f", MEvent.release,
         MEvent.persist ⟨"f", { base6 with mod_time := some "t9" }⟩]) ∧
    publishCount "f"
      [MEvent.acquire, MEvent.readEvt "f", MEvent.release,
       MEvent.acquire, MEvent.md5Evt "f", MEvent.release,
       MEvent.persist ⟨"f", { base6 with mod_time := some "t9" }⟩] = 0 :=
  monitor_selfheal_updates_modtime fsys6 emptyFileState none ⟨"f", base6⟩ "t9"
    (by decide) (by decide) (by decide) (by decide) (by decide) (by decide)
    (by decide) (by decide) (by decide) (by decide)

/-- C2 evaluated at the failing inputs: (1) when the read of `f2` raises,
the record is not skipped — the loop falls through, compares `f2`'s
baseline against the stale `self.response` still holding `f1`'s live state,
and publishes for `f2` (with `f1`'s live state as the "live" argument);
(2) when the first digest recomputation of a pass raises, the uncaught
`NameError` on the never-bound `current_md5` aborts the entire remaining
scan instead of being isolated to that resource. -/
theorem monitor_readError_publishes_and_aborts :
    monitorRun fsys2 emptyFileState none [⟨"f1", live2⟩, rec2b] =
      Except.ok (live2, none,
        [MEvent.acquire, MEvent.readEvt "f1", MEvent.release,
         MEvent.acquire, MEvent.logError "f2", MEvent.release,
         MEvent.publish "f2" rec2b live2]) ∧
    monitorRun fsysN emptyFileState none [recN1, recN2] =
      Except.error MonAbort.nameError := by
  constructor
  · decide
  · decide

theorem singleLockSpan_prefix_false (rid : String) (tail : List MEvent) :
    singleLockSpan rid
      ([MEvent.acquire, MEvent.readEvt rid, MEvent.release,
        MEvent.acquire, MEvent.md5Evt rid, MEvent.release] ++ tail) = false := by
  simp [singleLockSpan, betweenReadMd5, List.takeWhile]

/-- C9 (amended): whenever the monitor reaches the digest recomputation for
a record (live read succeeded, presence matches, `mod_time` differs, the
digest call succeeds), the live read and the digest recomputation are
guarded by two separate acquisitions of `self._lock`: the lock is released
after the read and re-acquired for the digest, so the pair is not covered
by one continuous lock span. -/
theorem monitor_two_lock_spans (sys : FileSys) (resp0 : FileState)
    (md0 : Option String) (rcd : MonRecord)
    (h1 : rcd.resource_id ∉ sys.failingReads)
    (h2 : rcd.status.present = (filesRead sys rcd.resource_id noAttrs).present)
    (h7 : rcd.status.mod_time ≠ (filesRead sys rcd.resource_id noAttrs).mod_time)
    (h8 : rcd.resource_id ∉ sys.failingMd5) :
    ∀ resp2 md2 evs, monStep sys resp0 md0 rcd = Except.ok (resp2, md2, evs) →
      singleLockSpan rcd.resource_id evs = false := by
  intro resp2 md2 evs h
  rw [monStep] at h
  simp only [h2] at h
  simp only [ne_eq, not_true_eq_false, if_false, ite_self] at h
  simp [h1, h7, h8] at h
  split at h
  · split at h
    · exact absurd h (by simp)
    · split at h
      · simp only [Except.ok.injEq, Prod.mk.injEq] at h
        obtain ⟨-, -, hevs⟩ := h
        rw [← hevs]
        exact singleLockSpan_prefix_false _ _
      · simp only [Except.ok.injEq, Prod.mk.injEq] at h
        obtain ⟨-, -, hevs⟩ := h
        rw [← hevs]
        exact singleLockSpan_prefix_false _ _
  · simp only [Except.ok.injEq, Prod.mk.injEq] at h
    obtain ⟨-, -, hevs⟩ := h
    rw [← hevs]
    exact singleLockSpan_prefix_false _ _

/-- C9 counterexample: at a concrete record whose `mod_time` drifted, the
monitor's event trace releases the lock between the live read and the
digest recomputation — the two are not performed under a single continuous
lock acquisition. -/
theorem monitor_lock_released_between_cex :
    (monStep fsys9 emptyFileState none rcd9).toOption.map
      (fun t => singleLockSpan "f" t.2.2) = some false := by
  decide

/-- Witness for the C9 theorem at the `fsys9w` scenario. -/
theorem monitor_two_lock_spans_witness :
    singleLockSpan "w"
      [MEvent.acquire, MEvent.readEvt "w", MEvent.release,
       MEvent.acquire, MEvent.md5Evt "w", MEvent.release,
       MEvent.persist ⟨"w", ⟨some true, none, some "root", some "root",
         some "0644", some "t3", some "t0", some "#v", none⟩⟩] = false :=
  monitor_two_lock_spans fsys9w emptyFileState none rcd9w
    (by decide) (by decide) (by decide) (by decide)
    (filesRead fsys9w "w" noAttrs) (some (FileSys.md5 fsys9w "w"))
    [MEvent.acquire, MEvent.readEvt "w", MEvent.release,
     MEvent.acquire, MEvent.md5Evt "w", MEvent.release,
     MEvent.persist ⟨"w", ⟨some true, none, some "root", some "root",
       some "0644", some "t3", some "t0", some "#v", none⟩⟩]
    (by decide)
